import Mathlib

/-!
Shallow embedding of the `Geo` shape hierarchy from `geo.hpp` (namespace
`Geo` of the geoex repository), and proofs of the specification's claims
about it.

The C++ code computes with `double` and the constant `M_PI`; the claims are
stated over exact real arithmetic, so the embedding uses `ℝ` and `Real.pi`.
Each class becomes a structure carrying exactly the fields the class stores,
and each member function becomes a Lean function on that structure.
-/

namespace Geo

open Real

/-- Two dimensional space point (`class Point2D`): fields `x`, `y`. -/
structure Point2D where
  x : ℝ
  y : ℝ

/-- Three dimensional space point (`class Point3D : public Point2D`):
inherits `x`, `y` and adds field `z`. -/
structure Point3D extends Point2D where
  z : ℝ

/-- Accessor `Point2D::getX`. -/
def Point2D.getX (p : Point2D) : ℝ := p.x

/-- Accessor `Point2D::getY`. -/
def Point2D.getY (p : Point2D) : ℝ := p.y

/-- Accessor `Point3D::getZ`. -/
def Point3D.getZ (p : Point3D) : ℝ := p.z

/-- Generic two dimensional shape (`class Shape2D`): stores a copy of the
reference point it was constructed from. -/
structure Shape2D where
  ref_point : Point2D

/-- Constructor `Shape2D(Point2D * p)`: copies `*p` into `ref_point`. -/
def Shape2D.ofPoint (p : Point2D) : Shape2D := ⟨p⟩

/-- Constructor `Shape2D(double px, double py)`: builds `ref_point`
from the coordinates. -/
def Shape2D.ofCoords (px py : ℝ) : Shape2D := ⟨⟨px, py⟩⟩

/-- Generic three dimensional shape (`class Shape3D`): stores a copy of the
3D reference point it was constructed from. -/
structure Shape3D where
  ref_point : Point3D

/-- Constructor `Shape3D(Point3D * p)`. -/
def Shape3D.ofPoint (p : Point3D) : Shape3D := ⟨p⟩

/-- Member `Shape3D::perimeter`: the uniform 3D default, always zero. -/
def Shape3D.perimeter (_ : Shape3D) : ℝ := 0

/-- Circle shape (`class Circle : public Shape2D`): the inherited
`Shape2D` part plus field `radius`. -/
structure Circle where
  toShape2D : Shape2D
  radius : ℝ

/-- Constructor `Circle(Point2D * p, double r)`. -/
def Circle.ofPoint (p : Point2D) (r : ℝ) : Circle :=
  ⟨Shape2D.ofPoint p, r⟩

/-- Constructor `Circle(double px, double py, double r)`. -/
def Circle.ofCoords (px py r : ℝ) : Circle :=
  ⟨Shape2D.ofCoords px py, r⟩

/-- Accessor `Circle::getRadius`. -/
def Circle.getRadius (c : Circle) : ℝ := c.radius

/-- Member `Circle::area`: `M_PI * radius * radius`. -/
noncomputable def Circle.area (c : Circle) : ℝ :=
  π * c.radius * c.radius

/-- Member `Circle::perimeter`: `2 * M_PI * radius`. -/
noncomputable def Circle.perimeter (c : Circle) : ℝ :=
  2 * π * c.radius

/-- Rectangle shape (`class Rectangle : public Shape2D`): the inherited
`Shape2D` part plus fields `width` and `height`. -/
structure Rectangle where
  toShape2D : Shape2D
  width : ℝ
  height : ℝ

/-- Constructor `Rectangle(Point2D * p, double w, double h)`. -/
def Rectangle.ofPoint (p : Point2D) (w h : ℝ) : Rectangle :=
  ⟨Shape2D.ofPoint p, w, h⟩

/-- Constructor `Rectangle(double px, double py, double w, double h)`. -/
def Rectangle.ofCoords (px py w h : ℝ) : Rectangle :=
  ⟨Shape2D.ofCoords px py, w, h⟩

/-- Accessor `Rectangle::getWidth`. -/
def Rectangle.getWidth (r : Rectangle) : ℝ := r.width

/-- Accessor `Rectangle::getHeight`. -/
def Rectangle.getHeight (r : Rectangle) : ℝ := r.height

/-- Member `Rectangle::area`: `width * height`. -/
def Rectangle.area (r : Rectangle) : ℝ := r.width * r.height

/-- Member `Rectangle::perimeter`: `2 * width + 2 * height`. -/
def Rectangle.perimeter (r : Rectangle) : ℝ := 2 * r.width + 2 * r.height

/-- Square shape (`class Square : public Shape2D`): the inherited
`Shape2D` part plus field `side`. -/
structure Square where
  toShape2D : Shape2D
  side : ℝ

/-- Constructor `Square(Point2D * p, double s)`. -/
def Square.ofPoint (p : Point2D) (s : ℝ) : Square :=
  ⟨Shape2D.ofPoint p, s⟩

/-- Constructor `Square(double x, double y, double s)`. -/
def Square.ofCoords (x y s : ℝ) : Square :=
  ⟨Shape2D.ofCoords x y, s⟩

/-- Accessor `Square::getSide`. -/
def Square.getSide (s : Square) : ℝ := s.side

/-- Member `Square::area`: `side * side`. -/
def Square.area (s : Square) : ℝ := s.side * s.side

/-- Member `Square::perimeter`: `side * 4`. -/
def Square.perimeter (s : Square) : ℝ := s.side * 4

/-- Sphere object (`class Sphere : public Shape3D`): the inherited
`Shape3D` part plus the aggregated `Circle cr`. -/
structure Sphere where
  toShape3D : Shape3D
  cr : Circle

/-- Constructor `Sphere(Point3D * cntr, double r)`: initializes the base
with `cntr` and the aggregated circle with `cntr->getX(), cntr->getY(), r`. -/
def Sphere.ofPoint (cntr : Point3D) (r : ℝ) : Sphere :=
  ⟨Shape3D.ofPoint cntr, Circle.ofCoords cntr.getX cntr.getY r⟩

/-- Accessor `Sphere::getRadius`: delegates to `cr.getRadius()`. -/
def Sphere.getRadius (s : Sphere) : ℝ := s.cr.getRadius

/-- Member `Sphere::area`: `4 * M_PI * cr.getRadius() * cr.getRadius()`. -/
noncomputable def Sphere.area (s : Sphere) : ℝ :=
  4 * π * s.cr.getRadius * s.cr.getRadius

/-- Member `Sphere::perimeter`: delegates to `cr.perimeter()`, overriding
the `Shape3D` zero default. -/
noncomputable def Sphere.perimeter (s : Sphere) : ℝ := s.cr.perimeter

/-- Member `Sphere::volume`:
`4.0/3.0 * M_PI * cr.getRadius() * cr.getRadius() * cr.getRadius()`. -/
noncomputable def Sphere.volume (s : Sphere) : ℝ :=
  4 / 3 * π * s.cr.getRadius * s.cr.getRadius * s.cr.getRadius

/-- Cube shape (`class Cube : public Shape3D`): the inherited `Shape3D`
part plus the aggregated `Square sq`. -/
structure Cube where
  toShape3D : Shape3D
  sq : Square

/-- Constructor `Cube(Point3D * p, double s)`: initializes the base with
`p` and the aggregated square with `p->getX(), p->getY(), s`. -/
def Cube.ofPoint (p : Point3D) (s : ℝ) : Cube :=
  ⟨Shape3D.ofPoint p, Square.ofCoords p.getX p.getY s⟩

/-- Accessor `Cube::getEdge`: delegates to `sq.getSide()`. -/
def Cube.getEdge (c : Cube) : ℝ := c.sq.getSide

/-- Member `Cube::area`: `sq.area() * 6`. -/
def Cube.area (c : Cube) : ℝ := c.sq.area * 6

/-- Cube does not override `perimeter`, so a call resolves to the inherited
`Shape3D::perimeter`, which returns zero. -/
def Cube.perimeter (c : Cube) : ℝ := c.toShape3D.perimeter

/-- Member `Cube::volume`: `sq.getSide() * sq.getSide() * sq.getSide()`. -/
def Cube.volume (c : Cube) : ℝ :=
  c.sq.getSide * c.sq.getSide * c.sq.getSide

/-- C1 counterexample: the claim that `perimeter()` returns 0 for every 3D
variant fails for `Sphere`. A sphere of radius 1 centered at the origin has
`perimeter() = 2·π ≠ 0`, because `Sphere::perimeter` delegates to the
aggregated circle instead of using the `Shape3D` zero default. -/
theorem C1_counterexample_sphere_perimeter_nonzero :
    (Sphere.ofPoint ⟨⟨0, 0⟩, 0⟩ 1).perimeter ≠ 0 := by
  have hπ : (0:ℝ) < π := Real.pi_pos
  simp only [Sphere.perimeter, Sphere.ofPoint, Circle.perimeter,
    Circle.ofCoords]
  nlinarith [hπ]

/-- C1 (amended): `Cube`, which does not override `perimeter`, returns the
uniform `Shape3D` default of 0 for every construction point and edge; but
`Sphere` overrides `perimeter` to return the aggregated circle's
circumference `2·π·r`, which is nonzero whenever `r ≠ 0`. -/
theorem C1_amended_cube_zero_sphere_circumference
    (p : Point3D) (a r : ℝ) :
    (Cube.ofPoint p a).perimeter = 0 ∧
    (Sphere.ofPoint p r).perimeter = 2 * π * r := by
  constructor
  · rfl
  · simp [Sphere.perimeter, Sphere.ofPoint, Circle.perimeter, Circle.ofCoords]

/-- C2: for every center point and radius, `Circle(p, r).area() = π·r²` and
`Circle(p, r).perimeter() = 2·π·r`. -/
theorem C2_circle_area_perimeter (p : Point2D) (r : ℝ) :
    (Circle.ofPoint p r).area = π * r ^ 2 ∧
    (Circle.ofPoint p r).perimeter = 2 * π * r := by
  constructor
  · simp [Circle.area, Circle.ofPoint]; ring
  · rfl

/-- C3: for every 3D center point and radius, `Sphere(p, r).area() = 4·π·r²`,
`Sphere(p, r).volume() = (4/3)·π·r³`, and `Sphere(p, r).perimeter()` equals
the perimeter of a standalone `Circle` of the same radius `r` (with any
center `q`), which is `2·π·r`. -/
theorem C3_sphere_formulas (p : Point3D) (q : Point2D) (r : ℝ) :
    (Sphere.ofPoint p r).area = 4 * π * r ^ 2 ∧
    (Sphere.ofPoint p r).volume = 4 / 3 * π * r ^ 3 ∧
    (Sphere.ofPoint p r).perimeter = (Circle.ofPoint q r).perimeter ∧
    (Sphere.ofPoint p r).perimeter = 2 * π * r := by
  refine ⟨?_, ?_, rfl, rfl⟩
  · simp [Sphere.area, Sphere.ofPoint, Circle.getRadius, Circle.ofCoords]
    ring
  · simp [Sphere.volume, Sphere.ofPoint, Circle.getRadius, Circle.ofCoords]
    ring

/-- C4: for every 3D center point and edge, `Cube(p, a).area() = 6·a²`,
`Cube(p, a).perimeter() = 0` (the inherited `Shape3D` default), and
`Cube(p, a).volume() = a³`. -/
theorem C4_cube_formulas (p : Point3D) (a : ℝ) :
    (Cube.ofPoint p a).area = 6 * a ^ 2 ∧
    (Cube.ofPoint p a).perimeter = 0 ∧
    (Cube.ofPoint p a).volume = a ^ 3 := by
  refine ⟨?_, rfl, ?_⟩
  · simp [Cube.area, Cube.ofPoint, Square.area, Square.ofCoords]; ring
  · simp [Cube.volume, Cube.ofPoint, Square.getSide, Square.ofCoords]; ring

/-- C5: constructing a `Circle` from a point value and constructing it from
that point's raw coordinates yield identical `area()` and `perimeter()`
results. -/
theorem C5_circle_construction_equivalence (p : Point2D) (r : ℝ) :
    (Circle.ofPoint p r).area = (Circle.ofCoords p.x p.y r).area ∧
    (Circle.ofPoint p r).perimeter = (Circle.ofCoords p.x p.y r).perimeter :=
  ⟨rfl, rfl⟩

/-- C6: for every center point and every radius `r > 0`, the quotient
`Circle(p, r).perimeter() / Circle(p, r).area()` equals `2 / r` (exact real
arithmetic). -/
theorem C6_perimeter_over_area (p : Point2D) (r : ℝ) (hr : 0 < r) :
    (Circle.ofPoint p r).perimeter / (Circle.ofPoint p r).area = 2 / r := by
  have hπ : π ≠ 0 := Real.pi_ne_zero
  have hr0 : r ≠ 0 := ne_of_gt hr
  simp only [Circle.perimeter, Circle.area, Circle.ofPoint]
  field_simp
  ring

/-- C6 witness: the quotient law instantiated at the origin and radius 2. -/
theorem C6_perimeter_over_area_witness :
    (0:ℝ) < 2 ∧
    (Circle.ofPoint ⟨0, 0⟩ 2).perimeter / (Circle.ofPoint ⟨0, 0⟩ 2).area
      = 2 / 2 :=
  ⟨by norm_num, C6_perimeter_over_area ⟨0, 0⟩ 2 (by norm_num)⟩

/-- C7: for every center point and dimensions `w`, `h`, the rectangle's
`area()` and `perimeter()` are symmetric under swapping width and height. -/
theorem C7_rectangle_symmetry (p : Point2D) (w h : ℝ) :
    (Rectangle.ofPoint p w h).area = (Rectangle.ofPoint p h w).area ∧
    (Rectangle.ofPoint p w h).perimeter
      = (Rectangle.ofPoint p h w).perimeter := by
  constructor
  · simp [Rectangle.area, Rectangle.ofPoint]; ring
  · simp [Rectangle.perimeter, Rectangle.ofPoint]; ring

/-- C8: for every center point and side `s`, `Square(p, s).area() = s²` and
`Square(p, s).perimeter() = 4 · Square(p, s).getSide()`. -/
theorem C8_square_formulas (p : Point2D) (s : ℝ) :
    (Square.ofPoint p s).area = s ^ 2 ∧
    (Square.ofPoint p s).perimeter = 4 * (Square.ofPoint p s).getSide := by
  constructor
  · simp [Square.area, Square.ofPoint]; ring
  · simp [Square.perimeter, Square.getSide, Square.ofPoint]; ring

/-- C9: no validation is performed on any numeric input: for every real
radius, width, height, side and edge — zero and negative values included —
construction succeeds and every `area`/`perimeter`/`volume` operation
returns exactly the value of its formula, never signaling failure. -/
theorem C9_no_validation_total (p2 : Point2D) (p3 : Point3D)
    (r w h s a : ℝ) :
    (Circle.ofPoint p2 r).area = π * r * r ∧
    (Circle.ofPoint p2 r).perimeter = 2 * π * r ∧
    (Rectangle.ofPoint p2 w h).area = w * h ∧
    (Rectangle.ofPoint p2 w h).perimeter = 2 * w + 2 * h ∧
    (Square.ofPoint p2 s).area = s * s ∧
    (Square.ofPoint p2 s).perimeter = s * 4 ∧
    (Sphere.ofPoint p3 r).area = 4 * π * r * r ∧
    (Sphere.ofPoint p3 r).perimeter = 2 * π * r ∧
    (Sphere.ofPoint p3 r).volume = 4 / 3 * π * r * r * r ∧
    (Cube.ofPoint p3 a).area = a * a * 6 ∧
    (Cube.ofPoint p3 a).perimeter = 0 ∧
    (Cube.ofPoint p3 a).volume = a * a * a := by
  refine ⟨rfl, rfl, rfl, rfl, rfl, rfl, rfl, rfl, rfl, ?_, rfl, rfl⟩
  simp [Cube.area, Cube.ofPoint, Square.area, Square.ofCoords]

/-- C10: for every real radius `r` and side `s`, including negative values,
`Circle(r).area()` and `Square(s).area()` are nonnegative, even though the
corresponding `perimeter()` results are negative for negative inputs and
`Rectangle`'s area is negative for mixed-sign inputs. -/
theorem C10_area_nonneg (p : Point2D) (r s w h : ℝ) :
    0 ≤ (Circle.ofPoint p r).area ∧
    0 ≤ (Square.ofPoint p s).area ∧
    (r < 0 → (Circle.ofPoint p r).perimeter < 0) ∧
    (s < 0 → (Square.ofPoint p s).perimeter < 0) ∧
    (w < 0 → 0 < h → (Rectangle.ofPoint p w h).area < 0) := by
  have hπ : (0:ℝ) < π := Real.pi_pos
  refine ⟨?_, ?_, ?_, ?_, ?_⟩
  · simp only [Circle.area, Circle.ofPoint]
    nlinarith [mul_self_nonneg r]
  · simpa only [Square.area, Square.ofPoint] using mul_self_nonneg s
  · intro hr
    simp only [Circle.perimeter, Circle.ofPoint]
    nlinarith
  · intro hs
    simp only [Square.perimeter, Square.ofPoint]
    nlinarith
  · intro hw hh
    simpa only [Rectangle.area, Rectangle.ofPoint]
      using mul_neg_of_neg_of_pos hw hh

/-- C10 witness: the nonnegativity and sign facts instantiated at radius
and side `-1`, width `-1` and height `1`. -/
theorem C10_area_nonneg_witness :
    0 ≤ (Circle.ofPoint ⟨0, 0⟩ (-1)).area ∧
    0 ≤ (Square.ofPoint ⟨0, 0⟩ (-1)).area ∧
    (Circle.ofPoint ⟨0, 0⟩ (-1)).perimeter < 0 ∧
    (Square.ofPoint ⟨0, 0⟩ (-1)).perimeter < 0 ∧
    (Rectangle.ofPoint ⟨0, 0⟩ (-1) 1).area < 0 := by
  obtain ⟨h1, h2, h3, h4, h5⟩ := C10_area_nonneg ⟨0, 0⟩ (-1) (-1) (-1) 1
  exact ⟨h1, h2, h3 (by norm_num), h4 (by norm_num),
    h5 (by norm_num) (by norm_num)⟩

end Geo
